import Mathlib

/-!
Verification of the Turn Orchestrator of the AICHAT experiment chat client.

The definitions below are a shallow embedding of the Python source in
`src/AIProject/AI_clean.py` and `src/AIProject/feature_flags.py`:
pure helpers become Lean functions, the mutable per-session state of
`ChatWindow` becomes an explicit state record threaded through step
functions, Python `None` becomes `Option.none`, and a Python exception
becomes `Option.none` at the result type of the embedded method.
Timestamps (Python floats holding `time.time()` values) are embedded as
rationals; the Python float `%` on non-negative operands is embedded as
the exact real modulus `a - b * ⌊a / b⌋`.
-/

namespace AIChat

/-- The closed flag enumeration `FeatureFlag` of `feature_flags.py`. -/
inductive FeatureFlag
  | SLOWDOWN
  | ERASE_HISTORY
  | BLOCK_MSGS
  | LIE
  | RUDE_TONE
  | KIND_TONE
  | ADVICE_ONLY
  | NO_MEMORY
  | PERSONA
  | AB_TESTING
  | AB_UI_TEST
  | AB_UI_ALT
  | SCRIPTED_RESPONSES
  | MIRROR
  | ANTI_MIRROR
  | GRAMMAR_ERRORS
  | TYPEWRITER
  | THINKING
  | POSITIVE_FEEDBACK
  | NEUTRAL_FEEDBACK
  | CRITICAL_FEEDBACK
  | WEB_SEARCH
  | HEDGING_LANGUAGE
  | DELAY_BEFORE_SEND
  | AUTO_END_AFTER_N_MSGS
  | AUTO_END_AFTER_T_MIN
  | TEXT_SIZE_CHANGER
  | STREAMING
  | CUSTOM_CHAT_TITLE
  | INTER_TRIAL_SURVEY
  | DYNAMIC_FEATURE_CHANGING
  deriving DecidableEq, Repr

/-- A value stored in the `feature_settings` dictionary: the Python table
holds ints, booleans and strings. -/
inductive SettingVal
  | int (n : ℤ)
  | bool (b : Bool)
  | str (s : String)
  deriving DecidableEq, Repr

/-- The live settings table: Python dict `feature_settings`, read through
`dict.get` / `dict.__getitem__`, so embedded at lookup level. -/
def Settings : Type := String → Option SettingVal

/-- The live flag table `enabled_features`: always fully populated, so a
total function. -/
def Flags : Type := FeatureFlag → Bool

/-- Python truthiness of a setting value (`if not perm_enabled: ...`). -/
def pyTruthy : SettingVal → Bool
  | .int n => n ≠ 0
  | .bool b => b
  | .str s => s ≠ ""

/-- Python `int(...)` applied to a setting value; a string argument is a
conversion that the orchestrator never performs on its numeric keys, so it
is embedded as failure. -/
def pyInt : SettingVal → Option ℤ
  | .int n => some n
  | .bool b => some (if b then 1 else 0)
  | .str _ => none

/-- Numeric reading of a setting value for Python arithmetic and
comparisons against floats. -/
def pyRat : SettingVal → Option ℚ
  | .int n => some (n : ℚ)
  | .bool b => some (if b then 1 else 0)
  | .str _ => none

/-- The default `feature_settings` table of `feature_flags.py` (A-side and
B-side keys), as an association list. -/
def feature_settings_list : List (String × SettingVal) :=
  [ ("text_size", .int 20)
  , ("delay_seconds", .int 2)
  , ("auto_end_messages", .int 10)
  , ("auto_end_minutes", .int 5)
  , ("slowdown_period_s", .int 100)
  , ("slowdown_window_s", .int 20)
  , ("slowdown_min_delay_s", .int 4)
  , ("slowdown_permanent_after_enabled", .bool false)
  , ("slowdown_permanent_after_s", .int 600)
  , ("erase_history_delay_s", .int 60)
  , ("erase_history_repeat", .bool false)
  , ("erase_history_interval_s", .int 120)
  , ("block_message_count", .int 5)
  , ("block_duration_s", .int 15)
  , ("block_repeat", .bool true)
  , ("typewriter_speed_ms", .int 20)
  , ("ab_test_message_threshold", .int 5)
  , ("scripted_convo_file", .str "script.json")
  , ("text_size_b", .int 24)
  , ("delay_seconds_b", .int 3)
  , ("auto_end_messages_b", .int 15)
  , ("auto_end_minutes_b", .int 8)
  , ("slowdown_period_s_b", .int 150)
  , ("slowdown_window_s_b", .int 30)
  , ("slowdown_min_delay_s_b", .int 6)
  , ("slowdown_permanent_after_enabled_b", .bool true)
  , ("slowdown_permanent_after_s_b", .int 900)
  , ("erase_history_delay_s_b", .int 90)
  , ("erase_history_repeat_b", .bool true)
  , ("erase_history_interval_s_b", .int 180)
  , ("block_message_count_b", .int 8)
  , ("block_duration_s_b", .int 25)
  , ("block_repeat_b", .bool false)
  , ("typewriter_speed_ms_b", .int 50)
  ]

/-- The default settings table, lookup view. -/
def feature_settings : Settings := fun k => feature_settings_list.lookup k

/-- `is_enabled` of `AI_clean.py` (line 109): `enabled_features.get(flag, False)`
on the always-populated flag table. -/
def is_enabled (flags : Flags) (f : FeatureFlag) : Bool := flags f

/-- `get_setting_value` of `AI_clean.py` (lines 153-160): B-side sibling key
`key + "_b"` is preferred when `is_option_b` and present, else
`feature_settings.get(setting_key, None)`. -/
def get_setting_value (S : Settings) (setting_key : String) (is_option_b : Bool) :
    Option SettingVal :=
  if is_option_b ∧ (S (setting_key ++ "_b")).isSome then S (setting_key ++ "_b")
  else S setting_key

/-- The `x = get_setting_value(k, b); if x is None: x = d` idiom used at
every call site of `get_setting_value`. -/
def resolve_setting (S : Settings) (setting_key : String) (is_option_b : Bool)
    (d : SettingVal) : SettingVal :=
  (get_setting_value S setting_key is_option_b).getD d

/-- Python float `%` on operands with positive divisor:
`a % b = a - b * floor(a / b)`. -/
def pymod (a b : ℚ) : ℚ := a - b * ((a / b).floor : ℚ)

/-- The per-session timing context read by the `TimingPolicy` methods of
`ChatWindow`: the live flag table, the live settings table, and
`self.session_start_time`. -/
structure TimingCtx where
  flags : Flags
  settings : Settings
  session_start : ℚ

/-- `_slowdown_permanent_active` of `AI_clean.py` (lines 2385-2404).
`none` embeds a Python `TypeError` from comparing a non-numeric setting. -/
def slowdown_permanent_active (ctx : TimingCtx) (now_s : ℚ) : Option Bool :=
  if ¬ is_enabled ctx.flags .SLOWDOWN then some false
  else
    let perm_enabled := resolve_setting ctx.settings "slowdown_permanent_after_enabled"
      false (.bool false)
    if ¬ pyTruthy perm_enabled then some false
    else
      let threshold_s := resolve_setting ctx.settings "slowdown_permanent_after_s"
        false (.int 600)
      match pyRat threshold_s with
      | none => none
      | some t => some (decide (now_s - ctx.session_start ≥ t))

/-- `_in_slow_window` of `AI_clean.py` (lines 2407-2435). `none` embeds a
Python `ValueError`/`TypeError` from `int(...)` on a non-numeric setting. -/
def in_slow_window (ctx : TimingCtx) (send_ts : ℚ) : Option Bool :=
  if ¬ is_enabled ctx.flags .SLOWDOWN then some false
  else
    let ncl := resolve_setting ctx.settings "slowdown_period_s" false (.int 100)
    let swl := resolve_setting ctx.settings "slowdown_window_s" false (.int 20)
    match pyInt ncl, pyInt swl with
    | some p, some w =>
      let normal_cycle_length : ℤ := max 1 p
      let slow_window_length : ℤ := max 0 w
      if slow_window_length ≤ 0 then some false
      else
        let elapsed : ℚ := send_ts - ctx.session_start
        let total_period : ℚ := ((normal_cycle_length + slow_window_length : ℤ) : ℚ)
        some (decide (pymod elapsed total_period ≥ (normal_cycle_length : ℚ)))
    | _, _ => none

/-- `_prepare_turn_slowdown` of `AI_clean.py` (lines 2452-2474), returning the
pair written to `(self._must_slow_turn, self._earliest_display_ts)`. -/
def prepare_turn_slowdown (ctx : TimingCtx) (send_ts : ℚ) :
    Option (Bool × Option ℚ) :=
  if ¬ is_enabled ctx.flags .SLOWDOWN then some (false, none)
  else
    match slowdown_permanent_active ctx send_ts, in_slow_window ctx send_ts with
    | some perm_active, some cyclic_active =>
      let must := perm_active || cyclic_active
      if must then
        let min_delay := resolve_setting ctx.settings "slowdown_min_delay_s" false (.int 4)
        match pyRat min_delay with
        | none => none
        | some m => some (must, some (send_ts + m))
      else some (must, none)
    | _, _ => none

/-- What `_maybe_delay_then` (lines 2477-2489) does with its callback:
run it now, or hand it to `QTimer.singleShot` with a millisecond delay. -/
inductive GateOutcome
  | immediate
  | scheduled (ms : ℤ)
  deriving DecidableEq, Repr

/-- The `(self._must_slow_turn, self._earliest_display_ts)` pair as a record,
for stating what the reveal gate reads and writes. -/
structure SlowTurnState where
  must_slow_turn : Bool
  earliest_display_ts : Option ℚ
  deriving DecidableEq, Repr

/-- `_maybe_delay_then` of `AI_clean.py` (lines 2477-2489): the decision it
takes on the callback, together with the state it leaves behind.  The method
reads `_must_slow_turn` and `_earliest_display_ts` but assigns neither, so
the returned state is the input state. -/
def maybe_delay_then (s : SlowTurnState) (now : ℚ) : GateOutcome × SlowTurnState :=
  match s.must_slow_turn, s.earliest_display_ts with
  | true, some e =>
    let remaining : ℚ := max 0 (e - now)
    if remaining > 0 then (.scheduled (remaining * 1000).floor, s)
    else (.immediate, s)
  | _, _ => (.immediate, s)

/-- The session used by the spec's worked example: only `SLOWDOWN` enabled,
default settings, session started at time `0`. -/
def slowdownCtx : TimingCtx :=
  { flags := fun f => decide (f = FeatureFlag.SLOWDOWN)
  , settings := feature_settings
  , session_start := 0 }

/-- One side of a content A/B trial: the keys `'A'` and `'B'` of
`self.ab_responses`. -/
inductive ABVersion
  | A
  | B
  deriving DecidableEq, Repr

/-- The pending-trial state of paired (content A/B) dispatch:
`self.ab_responses` (both keys) and `self.ab_responses_ready`. -/
structure ABTrial where
  respA : Option String
  respB : Option String
  ready : ℕ
  deriving DecidableEq, Repr

/-- The trial state installed by `_send_after_delay` step 5 before the two
requests start: `self.ab_responses = {'A': None, 'B': None}` and
`self.ab_responses_ready = 0`. -/
def ab_trial_init : ABTrial := ⟨none, none, 0⟩

/-- `_on_ab_response` of `AI_clean.py` (lines 3044-3059): store the reply
under its side key, bump the ready counter, and report whether the guarded
reveal block (`if self.ab_responses_ready == 2`) ran. -/
def on_ab_response (t : ABTrial) (reply : String) (version : ABVersion) :
    ABTrial × Bool :=
  let t' : ABTrial :=
    match version with
    | .A => { t with respA := some reply, ready := t.ready + 1 }
    | .B => { t with respB := some reply, ready := t.ready + 1 }
  (t', decide (t'.ready = 2))

/-- One entry of the JSON script list, mirroring the dictionary fields read
by `_send_after_delay` (`type`, `response`, `response_a`, `response_b`). -/
structure ScriptStep where
  step_type : Option String
  response : Option String
  response_a : Option String
  response_b : Option String
  deriving DecidableEq, Repr

/-- How `_send_after_delay` routes the current turn. -/
inductive TurnRoute
  | scripted_normal (reply : String)
  | scripted_ab (reply_a reply_b : String)
  | live
  deriving DecidableEq, Repr

/-- The scripted-mode prefix of `_send_after_delay` (lines 2804-2844): if
scripted mode is on and the cursor is inside the list, consume the step
(the cursor always advances) and route by its `type`; any other `type`
falls through to live dispatch, as does an exhausted script or scripted
mode being off.  Returns the route and the new `self.script_index`. -/
def script_dispatch (scripted_on : Bool) (script_list : List ScriptStep)
    (script_index : ℕ) : TurnRoute × ℕ :=
  if scripted_on then
    match script_list[script_index]? with
    | some current_step =>
      let idx' := script_index + 1
      let t := current_step.step_type.getD "normal"
      if t = "normal" then
        (.scripted_normal (current_step.response.getD
          "SCRIPT ERROR: Missing 'response' key"), idx')
      else if t = "ab_test" then
        (.scripted_ab
          (current_step.response_a.getD "SCRIPT ERROR: Missing 'response_a'")
          (current_step.response_b.getD "SCRIPT ERROR: Missing 'response_b'"), idx')
      else (.live, idx')
    | none => (.live, script_index)
  else (.live, script_index)

/-- Iterated script consumption: the cursor after `n` further turns, each
processed by `script_dispatch`. -/
def script_cursor_iter (scripted_on : Bool) (script_list : List ScriptStep)
    (script_index : ℕ) : ℕ → ℕ
  | 0 => script_index
  | n + 1 => script_cursor_iter scripted_on script_list
      (script_dispatch scripted_on script_list script_index).2 n

/-- The canonical name of each enumerated flag, as used by blueprint files
(`FeatureFlag[feature_name]`). -/
def flag_name : FeatureFlag → String
  | .SLOWDOWN => "SLOWDOWN"
  | .ERASE_HISTORY => "ERASE_HISTORY"
  | .BLOCK_MSGS => "BLOCK_MSGS"
  | .LIE => "LIE"
  | .RUDE_TONE => "RUDE_TONE"
  | .KIND_TONE => "KIND_TONE"
  | .ADVICE_ONLY => "ADVICE_ONLY"
  | .NO_MEMORY => "NO_MEMORY"
  | .PERSONA => "PERSONA"
  | .AB_TESTING => "AB_TESTING"
  | .AB_UI_TEST => "AB_UI_TEST"
  | .AB_UI_ALT => "AB_UI_ALT"
  | .SCRIPTED_RESPONSES => "SCRIPTED_RESPONSES"
  | .MIRROR => "MIRROR"
  | .ANTI_MIRROR => "ANTI_MIRROR"
  | .GRAMMAR_ERRORS => "GRAMMAR_ERRORS"
  | .TYPEWRITER => "TYPEWRITER"
  | .THINKING => "THINKING"
  | .POSITIVE_FEEDBACK => "POSITIVE_FEEDBACK"
  | .NEUTRAL_FEEDBACK => "NEUTRAL_FEEDBACK"
  | .CRITICAL_FEEDBACK => "CRITICAL_FEEDBACK"
  | .WEB_SEARCH => "WEB_SEARCH"
  | .HEDGING_LANGUAGE => "HEDGING_LANGUAGE"
  | .DELAY_BEFORE_SEND => "DELAY_BEFORE_SEND"
  | .AUTO_END_AFTER_N_MSGS => "AUTO_END_AFTER_N_MSGS"
  | .AUTO_END_AFTER_T_MIN => "AUTO_END_AFTER_T_MIN"
  | .TEXT_SIZE_CHANGER => "TEXT_SIZE_CHANGER"
  | .STREAMING => "STREAMING"
  | .CUSTOM_CHAT_TITLE => "CUSTOM_CHAT_TITLE"
  | .INTER_TRIAL_SURVEY => "INTER_TRIAL_SURVEY"
  | .DYNAMIC_FEATURE_CHANGING => "DYNAMIC_FEATURE_CHANGING"

/-- Every enumerated flag (iteration order of `for flag in FeatureFlag`). -/
def all_flags : List FeatureFlag :=
  [ .SLOWDOWN, .ERASE_HISTORY, .BLOCK_MSGS, .LIE, .RUDE_TONE, .KIND_TONE
  , .ADVICE_ONLY, .NO_MEMORY, .PERSONA, .AB_TESTING, .AB_UI_TEST, .AB_UI_ALT
  , .SCRIPTED_RESPONSES, .MIRROR, .ANTI_MIRROR, .GRAMMAR_ERRORS, .TYPEWRITER
  , .THINKING, .POSITIVE_FEEDBACK, .NEUTRAL_FEEDBACK, .CRITICAL_FEEDBACK
  , .WEB_SEARCH, .HEDGING_LANGUAGE, .DELAY_BEFORE_SEND, .AUTO_END_AFTER_N_MSGS
  , .AUTO_END_AFTER_T_MIN, .TEXT_SIZE_CHANGER, .STREAMING, .CUSTOM_CHAT_TITLE
  , .INTER_TRIAL_SURVEY, .DYNAMIC_FEATURE_CHANGING ]

/-- `FeatureFlag[feature_name]`: enum member lookup by name; `none` embeds
the `KeyError` caught by `_apply_block_config`. -/
def flag_of_name (s : String) : Option FeatureFlag :=
  all_flags.find? (fun f => flag_name f = s)

/-- One record of the blueprint file: the dictionary fields read by
`_apply_block_config` and `_finish_response`. -/
structure ExperimentBlock where
  block_name : Option String
  duration_messages : Option ℤ
  features : List (String × Bool)
  settings : List (String × SettingVal)

/-- Step 2 of `_apply_block_config`: iterate the block's `features` mapping
over the (already reset) flag table, skipping unknown names. -/
def apply_flag_overrides (init : Flags) (ov : List (String × Bool)) : Flags :=
  ov.foldl (fun acc p =>
    match flag_of_name p.1 with
    | some fl => fun g => if g = fl then p.2 else acc g
    | none => acc) init

/-- `feature_settings.update(block_settings)` at lookup level: a key present
in the update reads its new value, every other key is unchanged. -/
def settings_update (S : Settings) (upd : List (String × SettingVal)) : Settings :=
  fun k =>
    match upd.lookup k with
    | some v => some v
    | none => S k

/-- The observable side effects of a turn commit that leave the orchestrator
state (system messages, timers, log calls). -/
inductive TurnAction
  | log_assistant (had_ab_test : Bool) (ab_selection : Option String)
  | announce (text : String)
  | schedule_end (delay_ms : ℕ)
  | survey_scheduled (delay_ms : ℕ)
  | start_countdown (duration : SettingVal)
  deriving DecidableEq, Repr

/-- The `ChatWindow` fields involved in turn commits, blueprint progression
and auto-end, as initialized in `__init__`. -/
structure ChatState where
  flags : Flags
  settings : Settings
  history : List (String × String)
  count : ℕ
  assistant_message_count : ℕ
  experiment_plan : List ExperimentBlock
  current_block_index : ℤ
  messages_in_current_block : ℕ
  must_slow_turn : Bool
  earliest_display_ts : Option ℚ
  blocking : Bool
  ended : Bool
  last_ab_choice : Option String
  ab_responses : Option ABTrial

/-- `_apply_block_config` of `AI_clean.py` (lines 3293-3323): reset every
flag to `False`, apply the block's feature overrides, and
`feature_settings.update(block_settings)`.  The trailing UI refreshes
(text size, erase-history timer, window title) read but do not write the
flag and settings tables. -/
def apply_block_config (s : ChatState) (block_data : ExperimentBlock) : ChatState :=
  { s with
    flags := apply_flag_overrides (fun _ => false) block_data.features
    settings := settings_update s.settings block_data.settings }

/-- `_start_next_block` of `AI_clean.py` (lines 2365-2382).  `none` embeds an
index error from a state no session reaches (a negative block index entering
the activation branch). -/
def start_next_block (s : ChatState) : Option (ChatState × List TurnAction) :=
  if s.experiment_plan.isEmpty then some (s, [])
  else
    let idx := s.current_block_index + 1
    let s := { s with current_block_index := idx }
    if idx ≥ (s.experiment_plan.length : ℤ) then
      some ({ s with ended := true }, [.announce "Experiment blueprint complete."])
    else if idx < 0 then none
    else
      match s.experiment_plan[idx.toNat]? with
      | none => none
      | some current_block =>
        some (apply_block_config { s with messages_in_current_block := 0 }
          current_block, [])

/-- `_auto_end_chat` of `AI_clean.py` (lines 2551-2556): announce the
termination and schedule `_end_chat` after a 2000 ms grace period. -/
def auto_end_chat (reason : String) : List TurnAction :=
  [ .announce ("Chat ended automatically: " ++ reason ++ " reached.")
  , .schedule_end 2000 ]

/-- `_check_auto_end_conditions` of `AI_clean.py` (lines 2559-2570). `none`
embeds a `TypeError` from comparing a non-numeric setting. -/
def check_auto_end_conditions (s : ChatState) : Option (Bool × List TurnAction) :=
  if is_enabled s.flags .AUTO_END_AFTER_N_MSGS then
    let max_messages := resolve_setting s.settings "auto_end_messages" false (.int 10)
    match pyRat max_messages with
    | none => none
    | some m =>
      if (s.assistant_message_count : ℚ) ≥ m then some (true, auto_end_chat "message limit")
      else some (false, [])
  else some (false, [])

/-- `_start_block` of `AI_clean.py` (lines 3326 onward): suspend input and
start the countdown of the configured length. -/
def start_block (s : ChatState) : ChatState × List TurnAction :=
  let block_duration := resolve_setting s.settings "block_duration_s" false (.int 15)
  ({ s with blocking := true }, [.start_countdown block_duration])

/-- Python `==` between an int and a settings value: numeric comparison for
ints and bools, `False` (no error) for strings. -/
def pyEqInt (n : ℤ) : SettingVal → Bool
  | .int m => decide (n = m)
  | .bool b => decide (n = if b then 1 else 0)
  | .str _ => false

/-- `_finish_response` of `AI_clean.py` (lines 3227-3291): log and commit the
assistant turn, then either run blueprint block progression (blueprint mode)
or the survey / auto-end / message-blocking checks (standard mode).  `none`
embeds an uncaught exception (zero modulus, non-numeric setting, or an
out-of-range block index). -/
def finish_response (s : ChatState) (reply : String) :
    Option (ChatState × List TurnAction) :=
  let acts0 : List TurnAction :=
    [.log_assistant s.last_ab_choice.isSome s.last_ab_choice]
  let s := { s with last_ab_choice := none, ab_responses := none }
  let s := { s with history := s.history ++ [("assistant", reply)]
                  , count := s.count + 1
                  , assistant_message_count := s.assistant_message_count + 1 }
  if ¬ s.experiment_plan.isEmpty then
    let s := { s with messages_in_current_block := s.messages_in_current_block + 1 }
    if s.current_block_index < 0 then none
    else
      match s.experiment_plan[s.current_block_index.toNat]? with
      | none => none
      | some current_block =>
        let duration := current_block.duration_messages.getD 10
        if (s.messages_in_current_block : ℤ) ≥ duration then
          match start_next_block s with
          | none => none
          | some (s2, acts) => some (s2, acts0 ++ acts)
        else some (s, acts0)
  else
    let survey_acts : Option (List TurnAction) :=
      if is_enabled s.flags .INTER_TRIAL_SURVEY then
        let trigger_count := (s.settings "survey_trigger_count").getD (.int 5)
        match pyInt trigger_count with
        | none => none
        | some t =>
          if t = 0 then none
          else if 0 < s.assistant_message_count ∧ (s.assistant_message_count : ℤ) % t = 0
          then some [.survey_scheduled 1000]
          else some []
      else some []
    match survey_acts with
    | none => none
    | some sacts =>
      let s := { s with must_slow_turn := false, earliest_display_ts := none }
      match check_auto_end_conditions s with
      | none => none
      | some (fired, aacts) =>
        if fired then some (s, acts0 ++ sacts ++ aacts)
        else if is_enabled s.flags .BLOCK_MSGS then
          let message_threshold := resolve_setting s.settings "block_message_count"
            false (.int 5)
          let repeat_blocking := resolve_setting s.settings "block_repeat"
            false (.bool true)
          if pyTruthy repeat_blocking then
            match pyInt message_threshold with
            | none => none
            | some m =>
              if m = 0 then none
              else if 0 < s.count ∧ (s.count : ℤ) % m = 0 then
                let (s2, bacts) := start_block s
                some (s2, acts0 ++ sacts ++ bacts)
              else some (s, acts0 ++ sacts)
          else if pyEqInt s.count message_threshold then
            let (s2, bacts) := start_block s
            some (s2, acts0 ++ sacts ++ bacts)
          else some (s, acts0 ++ sacts)
        else some (s, acts0 ++ sacts)

/-- Commit one assistant turn, keeping only the next state. -/
def commit_turn (reply : String) (s : ChatState) : Option ChatState :=
  (finish_response s reply).map Prod.fst

/-- Commit `n` assistant turns in a row. -/
def commit_turns (reply : String) : ℕ → ChatState → Option ChatState
  | 0, s => some s
  | n + 1, s =>
    match commit_turn reply s with
    | none => none
    | some s' => commit_turns reply n s'

/-- The `ChatWindow.__init__` state relevant to the embedded methods
(empty history, zero counters, no blueprint, block index `-1`). -/
def init_chat_state : ChatState :=
  { flags := fun _ => false
  , settings := feature_settings
  , history := []
  , count := 0
  , assistant_message_count := 0
  , experiment_plan := []
  , current_block_index := -1
  , messages_in_current_block := 0
  , must_slow_turn := false
  , earliest_display_ts := none
  , blocking := false
  , ended := false
  , last_ab_choice := none
  , ab_responses := none }

/-- `_initialize_blueprint_mode` after a successful file load: install the
plan and start its first block. -/
def initialize_blueprint (s : ChatState) (plan : List ExperimentBlock) :
    Option (ChatState × List TurnAction) :=
  start_next_block { s with experiment_plan := plan }

/-- The two-block blueprint of the spec's end-to-end scenario:
durations `[2, 3]`, no overrides. -/
def demo_blueprint : List ExperimentBlock :=
  [ ⟨some "Block 0", some 2, [], []⟩
  , ⟨some "Block 1", some 3, [], []⟩ ]

/-- A blueprint-mode session with the message-count auto-end feature
enabled and the assistant-turn count far past the configured maximum. -/
def autoend_blueprint_state : ChatState :=
  { init_chat_state with
    flags := fun f => decide (f = FeatureFlag.AUTO_END_AFTER_N_MSGS)
  , experiment_plan := [⟨some "b", some 10, [], []⟩]
  , current_block_index := 0
  , assistant_message_count := 20 }

/-- The same session outside blueprint mode. -/
def autoend_standard_state : ChatState :=
  { init_chat_state with
    flags := fun f => decide (f = FeatureFlag.AUTO_END_AFTER_N_MSGS)
  , assistant_message_count := 20 }

/-- The session state with the demo blueprint active in its first block. -/
def demo_block_state : ChatState :=
  { init_chat_state with experiment_plan := demo_blueprint, current_block_index := 0 }

/-- `demo_block_state` after one committed assistant turn (the commit
bookkeeping of `_finish_response` with reply `"ok"`). -/
def demo_committed_state : ChatState :=
  { demo_block_state with
    last_ab_choice := none
  , ab_responses := none
  , history := demo_block_state.history ++ [("assistant", "ok")]
  , count := demo_block_state.count + 1
  , assistant_message_count := demo_block_state.assistant_message_count + 1
  , messages_in_current_block := demo_block_state.messages_in_current_block + 1 }

end AIChat

namespace AIChat

/-- `Rat.floor` agrees with the mathematical floor. -/
theorem rat_floor_eq_intFloor (q : ℚ) : q.floor = ⌊q⌋ := by
  rw [Rat.floor_def', ← Rat.floor_def]

/-- `pymod` is `b` times the fractional part of `a / b` (for `b ≠ 0`). -/
theorem pymod_eq_fract (a b : ℚ) (hb : b ≠ 0) :
    pymod a b = b * Int.fract (a / b) := by
  unfold pymod
  rw [rat_floor_eq_intFloor, Int.fract, mul_sub, mul_div_cancel₀ a hb]

/-- For a positive divisor, `pymod` is non-negative. -/
theorem pymod_nonneg (a b : ℚ) (hb : 0 < b) : 0 ≤ pymod a b := by
  rw [pymod_eq_fract a b (ne_of_gt hb)]
  exact mul_nonneg (le_of_lt hb) (Int.fract_nonneg _)

/-- For a positive divisor, `pymod` is below the divisor. -/
theorem pymod_lt (a b : ℚ) (hb : 0 < b) : pymod a b < b := by
  rw [pymod_eq_fract a b (ne_of_gt hb)]
  calc b * Int.fract (a / b) < b * 1 :=
        (mul_lt_mul_left hb).mpr (Int.fract_lt_one _)
    _ = b := mul_one b

/-- Unfolding lemma for `in_slow_window` when the flag is on and both cycle
settings hold integers. -/
theorem in_slow_window_eval (flags : Flags) (S : Settings) (start ts : ℚ) (p w : ℤ)
    (hon : flags FeatureFlag.SLOWDOWN = true)
    (hp : get_setting_value S "slowdown_period_s" false = some (.int p))
    (hw : get_setting_value S "slowdown_window_s" false = some (.int w)) :
    in_slow_window ⟨flags, S, start⟩ ts =
      if max 0 w ≤ 0 then some false
      else some (decide (pymod (ts - start) ((max 1 p + max 0 w : ℤ) : ℚ)
        ≥ ((max 1 p : ℤ) : ℚ))) := by
  unfold in_slow_window resolve_setting
  rw [hp, hw]
  simp [is_enabled, hon, pyInt]


theorem slowdownCtx_eval (ts : ℚ) :
    in_slow_window slowdownCtx ts = some (decide (pymod ts 120 ≥ 100)) := by
  have h := in_slow_window_eval slowdownCtx.flags feature_settings 0 ts 100 20 rfl rfl rfl
  rw [show (⟨slowdownCtx.flags, feature_settings, 0⟩ : TimingCtx) = slowdownCtx from rfl]
    at h
  rw [h]
  norm_num

/-- Evaluation of the cyclic window test at an integer-second elapsed time in
the default configuration. -/
theorem slowdownCtx_eval_int (n : ℤ) :
    in_slow_window slowdownCtx (n : ℚ) = some (decide (100 ≤ (n % 120 : ℤ))) := by
  rw [slowdownCtx_eval]
  have hfl : ⌊(n : ℚ) / ((120 : ℕ) : ℚ)⌋ = n / (120 : ℤ) :=
    Rat.floor_intCast_div_natCast n 120
  have hmod : pymod (n : ℚ) 120 = ((n % 120 : ℤ) : ℚ) := by
    unfold pymod
    rw [rat_floor_eq_intFloor]
    have h2 : ⌊(n : ℚ) / 120⌋ = n / (120 : ℤ) := by
      rw [← hfl]
      norm_num
    rw [h2]
    have h3 := Int.emod_add_ediv n 120
    have h4 : ((n % 120 : ℤ) : ℚ) + 120 * ((n / 120 : ℤ) : ℚ) = (n : ℚ) := by
      exact_mod_cast h3
    linarith
  rw [hmod]
  congr 1
  rw [decide_eq_decide]
  exact_mod_cast Iff.rfl

/-- C1, counterexample.  With the default configuration (period 100 s,
window 20 s) and only `SLOWDOWN` enabled, a send at elapsed time 219 s is
NOT in the cyclic slow window (219 mod 120 = 99 < 100), and a send at
elapsed time 220 s IS (220 mod 120 = 100 ≥ 100) — the opposite of the
claim's worked example. -/
theorem in_slow_window_219_220_counterexample :
    in_slow_window slowdownCtx 219 = some false ∧
    in_slow_window slowdownCtx 220 = some true := by
  constructor
  · rw [slowdownCtx_eval]
    norm_num [pymod, Rat.floor_def']
  · rw [slowdownCtx_eval]
    norm_num [pymod, Rat.floor_def']

/-- C1 (amended).  With `SLOWDOWN` enabled and integer period/window
settings, the turn at send time `ts` is in the cyclic slow window iff
`(elapsed mod (P + W)) ≥ P`, where `elapsed = ts - sessionStart`,
`P = max 1 period` and `W = max 0 window`; if `W = 0` the mechanism never
triggers.  In the default configuration (period 100, window 20): elapsed
110 is in the slow window, 90 is not, 219 is NOT, and 220 IS (the last two
corrected from the claim). -/
theorem in_slow_window_mod_law :
    (∀ (flags : Flags) (S : Settings) (start ts : ℚ) (p w : ℤ),
      flags FeatureFlag.SLOWDOWN = true →
      get_setting_value S "slowdown_period_s" false = some (.int p) →
      get_setting_value S "slowdown_window_s" false = some (.int w) →
      (in_slow_window ⟨flags, S, start⟩ ts = some true ↔
        ((max 1 p : ℤ) : ℚ) ≤ pymod (ts - start) ((max 1 p + max 0 w : ℤ) : ℚ)) ∧
      (max 0 w = 0 → in_slow_window ⟨flags, S, start⟩ ts = some false)) ∧
    in_slow_window slowdownCtx 110 = some true ∧
    in_slow_window slowdownCtx 90 = some false ∧
    in_slow_window slowdownCtx 219 = some false ∧
    in_slow_window slowdownCtx 220 = some true := by
  refine ⟨?_, ?_, ?_, ?_, ?_⟩
  · intro flags S start ts p w hon hp hw
    have heval := in_slow_window_eval flags S start ts p w hon hp hw
    have hPpos : (0 : ℚ) < ((max 1 p : ℤ) : ℚ) := by
      exact_mod_cast lt_of_lt_of_le zero_lt_one (le_max_left 1 p)
    constructor
    · by_cases hle : max 0 w ≤ 0
      · rw [heval, if_pos hle]
        have hw0 : max 0 w = 0 := le_antisymm hle (le_max_left 0 w)
        constructor
        · intro hco
          exact absurd hco (by simp)
        · intro hmod
          exfalso
          rw [hw0, add_zero] at hmod
          exact absurd hmod (not_le.mpr (pymod_lt _ _ hPpos))
      · rw [heval, if_neg hle]
        simp [ge_iff_le]
    · intro hw0
      rw [heval, if_pos (le_of_eq hw0)]
  · rw [slowdownCtx_eval]
    norm_num [pymod, Rat.floor_def']
  · rw [slowdownCtx_eval]
    norm_num [pymod, Rat.floor_def']
  · rw [slowdownCtx_eval]
    norm_num [pymod, Rat.floor_def']
  · rw [slowdownCtx_eval]
    norm_num [pymod, Rat.floor_def']

/-- C1 witness: the modulus law applied at the concrete default
configuration, send time 110, session start 0. -/
theorem in_slow_window_mod_law_witness :
    (fun f => decide (f = FeatureFlag.SLOWDOWN)) FeatureFlag.SLOWDOWN = true ∧
    (in_slow_window ⟨fun f => decide (f = FeatureFlag.SLOWDOWN), feature_settings, 0⟩
        110 = some true ↔
      ((max 1 (100 : ℤ) : ℤ) : ℚ) ≤
        pymod ((110 : ℚ) - 0) ((max 1 (100 : ℤ) + max 0 (20 : ℤ) : ℤ) : ℚ)) :=
  ⟨rfl, (in_slow_window_mod_law.1 (fun f => decide (f = FeatureFlag.SLOWDOWN))
    feature_settings 0 110 100 20 rfl rfl rfl).1⟩

/-- C8, counterexample.  A turn whose reveal timestamp has passed
(`mustDelayTurn = true`, earliest 10, now 20): the gate fires the action
immediately, but `_must_slow_turn` is left `true` — `_maybe_delay_then`
never clears it (the clearing happens in `_finish_response`). -/
theorem maybe_delay_then_no_clear_counterexample :
    maybe_delay_then ⟨true, some 10⟩ 20 = (.immediate, ⟨true, some 10⟩) ∧
    (maybe_delay_then ⟨true, some 10⟩ 20).2.must_slow_turn = true := by
  have h : maybe_delay_then ⟨true, some 10⟩ 20 = (.immediate, ⟨true, some 10⟩) := by
    unfold maybe_delay_then
    norm_num
  exact ⟨h, by rw [h]⟩

/-- C8 (amended).  The reveal gate runs its action immediately when no
delay decision is pending or the earliest reveal timestamp has passed, and
otherwise schedules the action after the remaining delta (in whole
milliseconds) without blocking the caller; it leaves both
`_must_slow_turn` and `_earliest_display_ts` unchanged (they are cleared
by the standard-mode turn commit and recomputed at the next send, not by
the gate). -/
theorem maybe_delay_then_gate :
    ∀ (s : SlowTurnState) (now : ℚ),
      (s.must_slow_turn = false ∨ s.earliest_display_ts = none →
        maybe_delay_then s now = (.immediate, s)) ∧
      (∀ e, s.must_slow_turn = true → s.earliest_display_ts = some e →
        e ≤ now → maybe_delay_then s now = (.immediate, s)) ∧
      (∀ e, s.must_slow_turn = true → s.earliest_display_ts = some e →
        now < e →
        maybe_delay_then s now = (.scheduled ((e - now) * 1000).floor, s)) ∧
      (maybe_delay_then s now).2 = s := by
  intro s now
  obtain ⟨m, ts⟩ := s
  refine ⟨?_, ?_, ?_, ?_⟩
  · rintro (h | h)
    · subst h
      rfl
    · subst h
      cases m <;> rfl
  · rintro e hm hts hle
    subst hm
    subst hts
    unfold maybe_delay_then
    have h0 : max 0 (e - now) = 0 := max_eq_left (sub_nonpos.mpr hle)
    simp only [h0]
    norm_num
  · rintro e hm hts hlt
    subst hm
    subst hts
    unfold maybe_delay_then
    have hpos : (0 : ℚ) < e - now := sub_pos.mpr hlt
    have h0 : max 0 (e - now) = e - now := max_eq_right (le_of_lt hpos)
    simp only [h0]
    rw [if_pos hpos]
  · unfold maybe_delay_then
    cases m <;> cases ts
    · rfl
    · rfl
    · rfl
    · simp [apply_ite]

/-- C8 witness: the gate applied to a pending decision with 6 s remaining
schedules the action and leaves the state untouched. -/
theorem maybe_delay_then_gate_witness :
    maybe_delay_then ⟨true, some 10⟩ 4 =
      (.scheduled (((10 : ℚ) - 4) * 1000).floor, ⟨true, some 10⟩) :=
  (maybe_delay_then_gate ⟨true, some 10⟩ 4).2.2.1 10 rfl rfl (by norm_num)

/-- C2.  Paired (content A/B) dispatch: from the freshly initialized trial,
a single side's completion stores its text under its key, leaves the other
side empty and the ready count at 1, and does not fire the reveal block;
in general the reveal block fires exactly when the ready count reaches 2. -/
theorem on_ab_response_single_pending :
    (∀ reply : String,
      on_ab_response ab_trial_init reply .A =
        (⟨some reply, none, 1⟩, false)) ∧
    (∀ reply : String,
      on_ab_response ab_trial_init reply .B =
        (⟨none, some reply, 1⟩, false)) ∧
    (∀ (t : ABTrial) (reply : String) (v : ABVersion),
      (on_ab_response t reply v).2 = true ↔
        (on_ab_response t reply v).1.ready = 2) := by
  refine ⟨fun reply => rfl, fun reply => rfl, ?_⟩
  intro t reply v
  cases v <;> simp [on_ab_response]

/-- C6.  Setting resolution: the primary variant reads `S[key]` when
present; the alternate variant reads the sibling `S[key + "_b"]` when
present and otherwise falls back to the primary resolution; and a key
absent from the table never raises — the call-site idiom substitutes the
hard-coded default for the returned `None`. -/
theorem setting_resolution_spec :
    ∀ (S : Settings) (key : String) (d : SettingVal),
      (∀ v, S key = some v → get_setting_value S key false = some v) ∧
      (∀ vb, S (key ++ "_b") = some vb → get_setting_value S key true = some vb) ∧
      (S (key ++ "_b") = none →
        get_setting_value S key true = get_setting_value S key false) ∧
      (S key = none → resolve_setting S key false d = d) ∧
      (S key = none → S (key ++ "_b") = none → resolve_setting S key true d = d) := by
  intro S key d
  refine ⟨?_, ?_, ?_, ?_, ?_⟩
  · intro v h
    simp [get_setting_value, h]
  · intro vb h
    simp [get_setting_value, h]
  · intro h
    simp [get_setting_value, h]
  · intro h
    simp [resolve_setting, get_setting_value, h]
  · intro h hb
    simp [resolve_setting, get_setting_value, h, hb]

/-- C6 witness: concrete resolutions in the default table — `text_size`
reads 20 on the primary side and the sibling 24 on the alternate side, and
the absent key `no_such_key` resolves to the supplied default 7 on both
sides. -/
theorem setting_resolution_spec_witness :
    get_setting_value feature_settings "text_size" false = some (.int 20) ∧
    get_setting_value feature_settings "text_size" true = some (.int 24) ∧
    resolve_setting feature_settings "no_such_key" false (.int 7) = .int 7 ∧
    resolve_setting feature_settings "no_such_key" true (.int 7) = .int 7 :=
  ⟨(setting_resolution_spec feature_settings "text_size" (.int 7)).1 (.int 20) rfl,
   (setting_resolution_spec feature_settings "text_size" (.int 7)).2.1 (.int 24) rfl,
   (setting_resolution_spec feature_settings "no_such_key" (.int 7)).2.2.2.1 rfl,
   (setting_resolution_spec feature_settings "no_such_key" (.int 7)).2.2.2.2 rfl rfl⟩

/-- C7.  The per-turn timing decision: `mustDelayTurn` is the OR of the
permanent-slowdown and cyclic slow-window mechanisms; when it is true the
earliest reveal timestamp is the send time plus the configured minimum
delay (independent of which mechanism fired), and when it is false the
timestamp is absent. -/
theorem prepare_turn_slowdown_or :
    ∀ (ctx : TimingCtx) (send_ts : ℚ) (perm cyc : Bool) (m : ℚ),
      slowdown_permanent_active ctx send_ts = some perm →
      in_slow_window ctx send_ts = some cyc →
      pyRat (resolve_setting ctx.settings "slowdown_min_delay_s" false (.int 4)) =
        some m →
      prepare_turn_slowdown ctx send_ts =
        some (perm || cyc, if perm || cyc then some (send_ts + m) else none) := by
  intro ctx send_ts perm cyc m hperm hcyc hm
  by_cases hon : is_enabled ctx.flags .SLOWDOWN
  · unfold prepare_turn_slowdown
    rw [if_neg (by simpa using hon)]
    simp only [hperm, hcyc]
    by_cases hor : (perm || cyc) = true
    · simp [hor, hm]
    · have h2 : perm = false ∧ cyc = false := by
        cases perm <;> cases cyc <;> simp_all
      obtain ⟨hp, hc⟩ := h2
      subst hp
      subst hc
      simp
  · have h1 : perm = false := by
      unfold slowdown_permanent_active at hperm
      rw [if_pos (by simpa using hon)] at hperm
      exact (Option.some_inj.mp hperm).symm
    have h2 : cyc = false := by
      unfold in_slow_window at hcyc
      rw [if_pos (by simpa using hon)] at hcyc
      exact (Option.some_inj.mp hcyc).symm
    subst h1
    subst h2
    unfold prepare_turn_slowdown
    rw [if_pos (by simpa using hon)]
    simp

/-- C7 witness: the decision at send time 110 in the default slowdown
session — the cyclic mechanism fires, the permanent one does not, and the
earliest reveal time is 110 + 4. -/
theorem prepare_turn_slowdown_or_witness :
    prepare_turn_slowdown slowdownCtx 110 =
      some (false || true,
        if false || true then some ((110 : ℚ) + ((4 : ℤ) : ℚ)) else none) :=
  prepare_turn_slowdown_or slowdownCtx 110 false true ((4 : ℤ) : ℚ) rfl
    (by rw [slowdownCtx_eval]; norm_num [pymod, Rat.floor_def']) rfl

/-- One script-consumption step at or past the end of the list leaves the
cursor alone and falls through to live dispatch. -/
theorem script_dispatch_exhausted (scripted_on : Bool)
    (script_list : List ScriptStep) (i : ℕ)
    (h : script_list.length ≤ i) :
    script_dispatch scripted_on script_list i = (.live, i) := by
  unfold script_dispatch
  cases scripted_on
  · rfl
  · rw [List.getElem?_eq_none h]
    rfl

/-- The cursor after one script-consumption step: it advances by exactly one
when scripted mode is on and the cursor is inside the list, else stays. -/
theorem script_dispatch_cursor (scripted_on : Bool)
    (script_list : List ScriptStep) (i : ℕ) :
    (script_dispatch scripted_on script_list i).2 =
      if scripted_on = true ∧ i < script_list.length then i + 1 else i := by
  cases scripted_on
  · simp [script_dispatch]
  · cases hstep : script_list[i]? with
    | none =>
      have hge : script_list.length ≤ i := by
        by_contra hlt
        rw [List.getElem?_eq_getElem (Nat.lt_of_not_le hlt)] at hstep
        cases hstep
      simp [script_dispatch, hstep, Nat.not_lt.mpr hge]
    | some step =>
      have hlt : i < script_list.length := by
        by_contra hge
        rw [List.getElem?_eq_none (Nat.le_of_not_lt hge)] at hstep
        cases hstep
      by_cases h1 : step.step_type.getD "normal" = "normal"
      · simp [script_dispatch, hstep, h1, hlt]
      · by_cases h2 : step.step_type.getD "normal" = "ab_test" <;>
          simp [script_dispatch, hstep, h1, h2, hlt]

/-- C5.  The ScriptPlayer cursor never decreases, never exceeds the script
list's length (when it starts within bounds), and once it is past the end
every further turn in scripted mode leaves it unchanged and routes to live
dispatch, no matter how many times the player is invoked. -/
theorem script_cursor_invariants :
    ∀ (scripted_on : Bool) (script_list : List ScriptStep) (script_index : ℕ),
      script_index ≤ (script_dispatch scripted_on script_list script_index).2 ∧
      (script_index ≤ script_list.length →
        (script_dispatch scripted_on script_list script_index).2 ≤
          script_list.length) ∧
      (script_list.length ≤ script_index →
        ∀ n, script_cursor_iter scripted_on script_list script_index n =
            script_index ∧
          (script_dispatch scripted_on script_list
            (script_cursor_iter scripted_on script_list script_index n)).1 =
            .live) := by
  intro scripted_on script_list script_index
  refine ⟨?_, ?_, ?_⟩
  · rw [script_dispatch_cursor]
    split
    · exact Nat.le_succ _
    · exact Nat.le_refl _
  · intro hle
    rw [script_dispatch_cursor]
    split
    · next h => exact h.2
    · exact hle
  · intro hpast n
    induction n with
    | zero =>
      refine ⟨rfl, ?_⟩
      show (script_dispatch scripted_on script_list script_index).1 = .live
      rw [script_dispatch_exhausted scripted_on script_list script_index hpast]
    | succ k ih =>
      have hstep : script_dispatch scripted_on script_list script_index =
          (.live, script_index) :=
        script_dispatch_exhausted scripted_on script_list script_index hpast
      constructor
      · show script_cursor_iter scripted_on script_list
          (script_dispatch scripted_on script_list script_index).2 k = script_index
        rw [hstep]
        exact ih.1
      · show (script_dispatch scripted_on script_list
          (script_cursor_iter scripted_on script_list
            (script_dispatch scripted_on script_list script_index).2 k)).1 = .live
        rw [hstep]
        exact ih.2

/-- C5 witness: with a one-step script and the cursor already at 5, three
further scripted turns leave the cursor at 5 and route to live dispatch;
and from cursor 0 the next cursor stays within the list length. -/
theorem script_cursor_invariants_witness :
    (script_cursor_iter true [⟨some "normal", some "hi", none, none⟩] 5 3 = 5 ∧
      (script_dispatch true [⟨some "normal", some "hi", none, none⟩]
        (script_cursor_iter true [⟨some "normal", some "hi", none, none⟩] 5 3)).1 =
        .live) ∧
    (script_dispatch true [⟨some "normal", some "hi", none, none⟩] 0).2 ≤ 1 :=
  ⟨(script_cursor_invariants true [⟨some "normal", some "hi", none, none⟩] 5).2.2
      (by decide) 3,
   (script_cursor_invariants true [⟨some "normal", some "hi", none, none⟩] 0).2.1
      (by decide)⟩

/-- C10.  A script step whose `type` field is neither `"normal"` nor
`"ab_test"` is silently skipped: the cursor still advances past it, and the
same turn is routed to live dispatch with no scripted reply and no
placeholder. -/
theorem script_unknown_type_skipped :
    ∀ (script_list : List ScriptStep) (i : ℕ) (step : ScriptStep) (t : String),
      script_list[i]? = some step →
      step.step_type = some t →
      t ≠ "normal" → t ≠ "ab_test" →
      script_dispatch true script_list i = (.live, i + 1) := by
  intro script_list i step t hstep ht h1 h2
  unfold script_dispatch
  rw [hstep]
  simp [ht, h1, h2]

/-- C10 witness: a script whose single step has type `"survey"` is skipped —
the turn goes to live dispatch and the cursor moves to 1. -/
theorem script_unknown_type_skipped_witness :
    script_dispatch true [⟨some "survey", some "ignored", none, none⟩] 0 =
      (.live, 1) :=
  script_unknown_type_skipped [⟨some "survey", some "ignored", none, none⟩] 0
    ⟨some "survey", some "ignored", none, none⟩ "survey" rfl rfl
    (by decide) (by decide)

/-- A flag named by no entry of the override list keeps its initial value
under `apply_flag_overrides`. -/
theorem apply_flag_overrides_of_not_mem :
    ∀ (ov : List (String × Bool)) (init : Flags) (f : FeatureFlag),
      (∀ p ∈ ov, flag_of_name p.1 ≠ some f) →
      apply_flag_overrides init ov f = init f := by
  intro ov
  induction ov with
  | nil => intro init f _; rfl
  | cons p t ih =>
    intro init f h
    have hp : flag_of_name p.1 ≠ some f := h p (List.mem_cons_self p t)
    have ht : ∀ q ∈ t, flag_of_name q.1 ≠ some f :=
      fun q hq => h q (List.mem_cons_of_mem p hq)
    have hcons : apply_flag_overrides init (p :: t) f =
        apply_flag_overrides
          (match flag_of_name p.1 with
           | some fl => fun g => if g = fl then p.2 else init g
           | none => init) t f := rfl
    rw [hcons, ih _ f ht]
    cases hcase : flag_of_name p.1 with
    | none => rfl
    | some fl =>
      have hne : f ≠ fl := by
        intro he
        exact hp (by rw [hcase, he])
      simp [hne]

/-- C3.  Activating a blueprint block resets every enumerated flag to false
before applying the block's feature overrides — so the resulting flag table
depends only on the block, and a flag named by no override of the active
block reads false even if an earlier block enabled it — and merges the
block's setting overrides into the live table by overwriting exactly the
keys present in the override and preserving every other key. -/
theorem apply_block_config_reset_merge :
    ∀ (s : ChatState) (block_data : ExperimentBlock),
      ((apply_block_config s block_data).flags =
        apply_flag_overrides (fun _ => false) block_data.features) ∧
      (∀ f : FeatureFlag,
        (∀ p ∈ block_data.features, flag_of_name p.1 ≠ some f) →
        (apply_block_config s block_data).flags f = false) ∧
      (∀ k v, block_data.settings.lookup k = some v →
        (apply_block_config s block_data).settings k = some v) ∧
      (∀ k, block_data.settings.lookup k = none →
        (apply_block_config s block_data).settings k = s.settings k) ∧
      (∀ (s0 : ChatState) (b0 b1 : ExperimentBlock) (f : FeatureFlag),
        (∀ p ∈ b1.features, flag_of_name p.1 ≠ some f) →
        (apply_block_config (apply_block_config s0 b0) b1).flags f = false) := by
  intro s block_data
  refine ⟨rfl, ?_, ?_, ?_, ?_⟩
  · intro f h
    exact apply_flag_overrides_of_not_mem block_data.features _ f h
  · intro k v h
    show settings_update s.settings block_data.settings k = some v
    unfold settings_update
    rw [h]
  · intro k h
    show settings_update s.settings block_data.settings k = s.settings k
    unfold settings_update
    rw [h]
  · intro s0 b0 b1 f h
    exact apply_flag_overrides_of_not_mem b1.features _ f h

/-- C3 witness: block 0 enables `TYPEWRITER` and sets `text_size` to 30;
activating an empty block 1 afterwards reads `TYPEWRITER` as false again,
while the merge of block 0 overwrote `text_size` and preserved
`delay_seconds`. -/
theorem apply_block_config_reset_merge_witness :
    (apply_block_config
        (apply_block_config init_chat_state
          ⟨some "b0", some 2, [("TYPEWRITER", true)], [("text_size", .int 30)]⟩)
        ⟨some "b1", some 3, [], []⟩).flags .TYPEWRITER = false ∧
    (apply_block_config init_chat_state
        ⟨some "b0", some 2, [("TYPEWRITER", true)], [("text_size", .int 30)]⟩).settings
      "text_size" = some (.int 30) ∧
    (apply_block_config init_chat_state
        ⟨some "b0", some 2, [("TYPEWRITER", true)], [("text_size", .int 30)]⟩).settings
      "delay_seconds" = init_chat_state.settings "delay_seconds" :=
  ⟨(apply_block_config_reset_merge init_chat_state
      ⟨some "b1", some 3, [], []⟩).2.2.2.2 _ _ _ .TYPEWRITER
      (by intro p hp; cases hp),
   (apply_block_config_reset_merge init_chat_state
      ⟨some "b0", some 2, [("TYPEWRITER", true)], [("text_size", .int 30)]⟩).2.2.1
      "text_size" (.int 30) rfl,
   (apply_block_config_reset_merge init_chat_state
      ⟨some "b0", some 2, [("TYPEWRITER", true)], [("text_size", .int 30)]⟩).2.2.2.1
      "delay_seconds" rfl⟩

/-- Characterization of `_start_next_block` on a non-empty plan: the index
is incremented, then either the blueprint completes (out of range) or the
next block activates with the turn counter reset. -/
theorem start_next_block_advance (s : ChatState)
    (h : ¬ s.experiment_plan.isEmpty = true) :
    ((s.experiment_plan.length : ℤ) ≤ s.current_block_index + 1 →
      start_next_block s =
        some ({ s with current_block_index := s.current_block_index + 1
                     , ended := true },
          [.announce "Experiment blueprint complete."])) ∧
    (∀ blk, 0 ≤ s.current_block_index + 1 →
      s.experiment_plan[(s.current_block_index + 1).toNat]? = some blk →
      start_next_block s =
        some (apply_block_config
          { s with current_block_index := s.current_block_index + 1
                 , messages_in_current_block := 0 } blk, [])) := by
  constructor
  · intro hge
    unfold start_next_block
    rw [if_neg h, if_pos hge]
  · intro blk h0 hblk
    have htn : (s.current_block_index + 1).toNat < s.experiment_plan.length :=
      (List.getElem?_eq_some.mp hblk).1
    have hlt : s.current_block_index + 1 < (s.experiment_plan.length : ℤ) := by
      omega
    unfold start_next_block
    rw [if_neg h, if_neg (not_le.mpr hlt),
      if_neg (by omega : ¬ s.current_block_index + 1 < 0)]
    rw [hblk]

/-- Characterization of `_finish_response` in blueprint mode: the commit
bookkeeping runs, the in-block turn counter is incremented, and when it
reaches the current block's duration `_start_next_block` runs on the
committed state. -/
theorem finish_blueprint_commit (s : ChatState) (reply : String)
    (blk : ExperimentBlock)
    (hplan : ¬ s.experiment_plan.isEmpty = true)
    (h0 : 0 ≤ s.current_block_index)
    (hblk : s.experiment_plan[s.current_block_index.toNat]? = some blk) :
    finish_response s reply =
      (let s2 : ChatState :=
        { s with last_ab_choice := none
               , ab_responses := none
               , history := s.history ++ [("assistant", reply)]
               , count := s.count + 1
               , assistant_message_count := s.assistant_message_count + 1
               , messages_in_current_block := s.messages_in_current_block + 1 }
       if ((s.messages_in_current_block + 1 : ℕ) : ℤ) ≥
           blk.duration_messages.getD 10 then
         (start_next_block s2).map
           (fun p => (p.1,
             [.log_assistant s.last_ab_choice.isSome s.last_ab_choice] ++ p.2))
       else
         some (s2, [.log_assistant s.last_ab_choice.isSome s.last_ab_choice])) := by
  unfold finish_response
  dsimp only
  rw [if_pos hplan]
  rw [if_neg (not_lt.mpr h0)]
  rw [hblk]
  dsimp only
  by_cases hdur : ((s.messages_in_current_block + 1 : ℕ) : ℤ) ≥
      blk.duration_messages.getD 10
  · rw [if_pos hdur, if_pos hdur]
    cases start_next_block _ with
    | none => rfl
    | some p => rfl
  · rw [if_neg hdur, if_neg hdur]

/-- C4.  While a blueprint is active, every committed turn increments the
turns-elapsed-in-block counter; when it reaches the current block's
duration, advance runs automatically: the block index is incremented and
the counter reset to zero, and an out-of-range index instead transitions
to Complete (announcing completion and ending the session).  For the
two-block blueprint with durations `[2, 3]`: block 0 activates at index 0,
after 2 committed turns the runner is at block 1 with a fresh counter, and
after 5 committed turns it has completed. -/
theorem blueprint_turn_progression :
    (∀ (s : ChatState) (reply : String) (s' : ChatState) (acts : List TurnAction)
        (blk : ExperimentBlock),
      ¬ s.experiment_plan.isEmpty = true →
      0 ≤ s.current_block_index →
      s.experiment_plan[s.current_block_index.toNat]? = some blk →
      finish_response s reply = some (s', acts) →
      (((s.messages_in_current_block + 1 : ℕ) : ℤ) < blk.duration_messages.getD 10 →
        s'.messages_in_current_block = s.messages_in_current_block + 1 ∧
        s'.current_block_index = s.current_block_index ∧
        s'.ended = s.ended) ∧
      (blk.duration_messages.getD 10 ≤ ((s.messages_in_current_block + 1 : ℕ) : ℤ) →
        s'.current_block_index = s.current_block_index + 1 ∧
        (s.current_block_index + 1 < (s.experiment_plan.length : ℤ) →
          s'.messages_in_current_block = 0 ∧ s'.ended = s.ended) ∧
        ((s.experiment_plan.length : ℤ) ≤ s.current_block_index + 1 →
          s'.ended = true ∧
          TurnAction.announce "Experiment blueprint complete." ∈ acts))) ∧
    (initialize_blueprint init_chat_state demo_blueprint).map
      (fun p => (p.1.current_block_index, p.1.messages_in_current_block, p.1.ended)) =
      some (0, 0, false) ∧
    (((initialize_blueprint init_chat_state demo_blueprint).map Prod.fst).bind
      (commit_turns "ok" 2)).map
      (fun s => (s.current_block_index, s.messages_in_current_block, s.ended)) =
      some (1, 0, false) ∧
    (((initialize_blueprint init_chat_state demo_blueprint).map Prod.fst).bind
      (commit_turns "ok" 5)).map
      (fun s => (s.current_block_index, s.messages_in_current_block, s.ended)) =
      some (2, 3, true) := by
  refine ⟨?_, by decide, by decide, by decide⟩
  intro s reply s' acts blk hplan h0 hblk hfin
  rw [finish_blueprint_commit s reply blk hplan h0 hblk] at hfin
  dsimp only at hfin
  constructor
  · intro hlt
    rw [if_neg (not_le.mpr hlt)] at hfin
    obtain ⟨h1, h2⟩ := Prod.mk.injEq .. ▸ Option.some_inj.mp hfin
    subst h1
    exact ⟨rfl, rfl, rfl⟩
  · intro hge
    rw [if_pos hge] at hfin
    set s2 : ChatState :=
      { s with last_ab_choice := none
             , ab_responses := none
             , history := s.history ++ [("assistant", reply)]
             , count := s.count + 1
             , assistant_message_count := s.assistant_message_count + 1
             , messages_in_current_block := s.messages_in_current_block + 1 }
      with hs2
    have hplan2 : ¬ s2.experiment_plan.isEmpty = true := hplan
    have hadv := start_next_block_advance s2 hplan2
    refine ⟨?_, ?_, ?_⟩
    all_goals {
      by_cases hrange : s.current_block_index + 1 < (s.experiment_plan.length : ℤ)
      · have h01 : 0 ≤ s2.current_block_index + 1 := by
          show 0 ≤ s.current_block_index + 1
          omega
        have hblk2 : s2.experiment_plan[(s2.current_block_index + 1).toNat]? =
            some (s.experiment_plan[(s.current_block_index + 1).toNat]) := by
          show s.experiment_plan[(s.current_block_index + 1).toNat]? = _
          exact List.getElem?_eq_getElem (by omega)
        rw [hadv.2 _ h01 hblk2] at hfin
        simp only [Option.map_some] at hfin
        obtain ⟨h1, h2⟩ := Prod.mk.injEq .. ▸ Option.some_inj.mp hfin
        subst h1
        first
          | exact rfl
          | (intro h; exact ⟨rfl, rfl⟩)
          | (intro h; omega)
      · have hge2 : (s2.experiment_plan.length : ℤ) ≤ s2.current_block_index + 1 := by
          show (s.experiment_plan.length : ℤ) ≤ s.current_block_index + 1
          omega
        rw [hadv.1 hge2] at hfin
        simp only [Option.map_some] at hfin
        obtain ⟨h1, h2⟩ := Prod.mk.injEq .. ▸ Option.some_inj.mp hfin
        subst h1
        first
          | exact rfl
          | (intro h; omega)
          | (intro h; subst h2; exact ⟨rfl, by simp⟩)
    }

/-- C4 witness: committing one turn in block 0 of the demo blueprint
(duration 2, counter 0 → 1 < 2) increments the counter and leaves the
block index and completion state untouched. -/
theorem blueprint_turn_progression_witness :
    demo_committed_state.messages_in_current_block =
      demo_block_state.messages_in_current_block + 1 ∧
    demo_committed_state.current_block_index =
      demo_block_state.current_block_index ∧
    demo_committed_state.ended = demo_block_state.ended :=
  (blueprint_turn_progression.1 demo_block_state "ok" demo_committed_state
    [.log_assistant false none] ⟨some "Block 0", some 2, [], []⟩
    (by decide) (by decide) rfl rfl).1 (by decide)

/-- `_check_auto_end_conditions` fires when the message-count feature is on
and the assistant-turn count has reached the resolved maximum. -/
theorem check_auto_end_fires (x : ChatState) (m : ℚ)
    (hen : is_enabled x.flags .AUTO_END_AFTER_N_MSGS = true)
    (hm : pyRat (resolve_setting x.settings "auto_end_messages" false (.int 10)) =
      some m)
    (hcount : m ≤ (x.assistant_message_count : ℚ)) :
    check_auto_end_conditions x = some (true, auto_end_chat "message limit") := by
  unfold check_auto_end_conditions
  rw [if_pos hen]
  dsimp only
  rw [hm]
  dsimp only
  rw [if_pos hcount]

/-- C9, counterexample.  In blueprint mode a committed assistant turn skips
the auto-end evaluation entirely: with the message-count feature enabled,
the resolved maximum 10 and the assistant-turn count already at 20, the
commit completes with only the log action — no termination announcement, no
scheduled close, session not ended. -/
theorem auto_end_skipped_in_blueprint_counterexample :
    is_enabled autoend_blueprint_state.flags .AUTO_END_AFTER_N_MSGS = true ∧
    resolve_setting autoend_blueprint_state.settings "auto_end_messages" false
      (.int 10) = .int 10 ∧
    10 ≤ autoend_blueprint_state.assistant_message_count ∧
    (finish_response autoend_blueprint_state "x").map (fun p => (p.1.ended, p.2)) =
      some (false, [.log_assistant false none]) := by
  refine ⟨rfl, rfl, by decide, by decide⟩

/-- C9 (amended).  Outside blueprint mode, auto-end triggers are evaluated
after every committed assistant turn: whenever a standard-mode commit
completes, if the message-count auto-end feature is enabled and the
assistant-turn count has reached the configured maximum, termination is
announced and an orderly close is scheduled after a fixed 2000 ms grace
period.  (Blueprint-mode commits return before this check.) -/
theorem auto_end_on_standard_commit :
    ∀ (s : ChatState) (reply : String) (s' : ChatState) (acts : List TurnAction)
        (m : ℚ),
      s.experiment_plan = [] →
      finish_response s reply = some (s', acts) →
      is_enabled s.flags .AUTO_END_AFTER_N_MSGS = true →
      pyRat (resolve_setting s.settings "auto_end_messages" false (.int 10)) =
        some m →
      m ≤ ((s.assistant_message_count + 1 : ℕ) : ℚ) →
      TurnAction.announce "Chat ended automatically: message limit reached." ∈ acts ∧
      TurnAction.schedule_end 2000 ∈ acts := by
  intro s reply s' acts m hplan hfin hen hm hcount
  unfold finish_response at hfin
  dsimp only at hfin
  rw [hplan] at hfin
  simp only [List.isEmpty_nil, not_true, if_neg, if_false] at hfin
  split at hfin
  · cases hfin
  · have hchk : check_auto_end_conditions
        ({ s with history := s.history ++ [("assistant", reply)]
                , count := s.count + 1
                , assistant_message_count := s.assistant_message_count + 1
                , experiment_plan := []
                , must_slow_turn := false
                , earliest_display_ts := none
                , last_ab_choice := none
                , ab_responses := none } : ChatState) =
        some (true, auto_end_chat "message limit") :=
      check_auto_end_fires _ m hen hm hcount
    rw [hchk] at hfin
    dsimp only at hfin
    obtain ⟨h1, h2⟩ := Prod.mk.injEq .. ▸ Option.some_inj.mp hfin
    subst h2
    constructor
    · refine List.mem_append_right _ ?_
      exact List.mem_cons_self _ _
    · refine List.mem_append_right _ ?_
      exact List.mem_cons_of_mem _ (List.mem_cons_self _ _)

/-- C9 witness: the standard-mode session with count 20 past the maximum 10
commits one more turn; the resulting actions contain the announcement and
the 2000 ms scheduled close. -/
theorem auto_end_on_standard_commit_witness :
    TurnAction.announce "Chat ended automatically: message limit reached." ∈
      ([.log_assistant false none,
        .announce "Chat ended automatically: message limit reached.",
        .schedule_end 2000] : List TurnAction) ∧
    TurnAction.schedule_end 2000 ∈
      ([.log_assistant false none,
        .announce "Chat ended automatically: message limit reached.",
        .schedule_end 2000] : List TurnAction) :=
  auto_end_on_standard_commit autoend_standard_state "x"
    { autoend_standard_state with
      history := autoend_standard_state.history ++ [("assistant", "x")]
    , count := autoend_standard_state.count + 1
    , assistant_message_count := autoend_standard_state.assistant_message_count + 1
    , experiment_plan := []
    , must_slow_turn := false
    , earliest_display_ts := none
    , last_ab_choice := none
    , ab_responses := none }
    [.log_assistant false none,
     .announce "Chat ended automatically: message limit reached.",
     .schedule_end 2000]
    ((10 : ℤ) : ℚ) rfl rfl rfl rfl (by decide)

end AIChat
